import Mathlib

/-!
Shallow embedding of the submission front-end of a Certificate Transparency
log node (cpp/server/handler.cc, cpp/log/cert_submission_handler.cc,
cpp/log/logged_certificate.cc), together with theorems settling the frozen
claims about its specification.

External collaborators (libevent, OpenSSL-backed certificate accessors, the
database, the log lookup, the cluster controller, the signing frontend) are
modelled as oracle parameters: the embedded functions reproduce exactly the
control flow of the source over the outcomes those collaborators report.
-/

namespace CtFrontend

/-! ## Basic protocol values -/

inductive Method where
  | get
  | post
  | head
  | put
  | delete
  | options
deriving DecidableEq, Repr

/-- Canonical status codes of `util::Status` used by the handlers. -/
inductive CanonicalCode where
  | ok
  | invalidArgument
  | failedPrecondition
  | unauthenticated
  | resourceExhausted
  | alreadyExists
  | internalError
  | notFound
  | unknownCode
deriving DecidableEq, Repr

/-- `util::Status`: a canonical code plus an error message. -/
structure UStatus where
  code : CanonicalCode
  msg : String
deriving DecidableEq, Repr

/-- `util::Status::OK`. -/
def UStatus.OK : UStatus := { code := CanonicalCode.ok, msg := "" }

/-- `util::Status::ok()`. -/
def UStatus.isOk (s : UStatus) : Bool := s.code = CanonicalCode.ok

/-! ## JSON replies

`JsonObject` / `JsonArray` of server/json_output.h, kept as ordered
key-value lists; `b64` records a field added with `AddBase64`. -/

inductive JVal where
  | str : String → JVal
  | b64 : String → JVal
  | int : Int → JVal
  | arr : List JVal → JVal
  | obj : List (String × JVal) → JVal

/-- An HTTP reply sent through `JsonOutput`: either `SendError` with an HTTP
status code and a message, or `SendJsonReply` with a JSON object. -/
inductive Response where
  | error : Nat → String → Response
  | jsonOk : Nat → List (String × JVal) → Response

/-! ## Query parameters (handler.cc anonymous namespace) -/

/-- `GetParam`: look a parameter up in the parsed query multimap.  The C++
code takes the first entry for the key and flags a duplicate key (the next
entry in the multimap, where equal keys are adjacent) as invalid, so the
lookup succeeds exactly when the key occurs once. -/
def GetParam (query : List (String × String)) (param : String) : Option String :=
  match query.filter (fun kv => kv.1 == param) with
  | [kv] => some kv.2
  | _ => none

/-- Modelled from the spec: ISO C `isspace` in the default locale, used by
`strtol` (libc, outside this repository): space, tab, newline, vertical
tab, form feed, carriage return. -/
def isSpaceChar (c : Char) : Bool :=
  decide (c.toNat = 32) || decide (c.toNat = 9) || decide (c.toNat = 10) ||
    decide (c.toNat = 11) || decide (c.toNat = 12) || decide (c.toNat = 13)

/-- A decimal digit: a character between '0' (48) and '9' (57). -/
def isDigitChar (c : Char) : Bool :=
  decide (48 ≤ c.toNat) && decide (c.toNat ≤ 57)

def dropSpaces (l : List Char) : List Char := l.dropWhile isSpaceChar

/-- Optional sign character at the head of the subject sequence. -/
def splitSign (l : List Char) : Int × List Char :=
  match l with
  | [] => (1, [])
  | c :: rest =>
    if c = '-' then (-1, rest)
    else if c = '+' then (1, rest)
    else (1, c :: rest)

def takeDigits (l : List Char) : List Char := l.takeWhile isDigitChar

def digitsToNat (l : List Char) : Nat :=
  l.foldl (fun a c => a * 10 + (c.toNat - 48)) 0

def LONG_MAX : Int := 2 ^ 63 - 1

def LONG_MIN : Int := -(2 ^ 63)

def INT_MAX : Int := 2 ^ 31 - 1

def INT_MIN : Int := -(2 ^ 31)

structure StrtolResult where
  value : Int
  erange : Bool
deriving DecidableEq, Repr

/-- Modelled from the spec: ISO C `strtol(value, NULL, 10)` (libc, outside
this repository).  Skips leading whitespace, accepts an optional sign and
the longest run of decimal digits (an empty run yields 0 with no error),
and clamps to `[LONG_MIN, LONG_MAX]` setting `errno = ERANGE` on
overflow or underflow. -/
def strtolBase10 (s : String) : StrtolResult :=
  let l := dropSpaces s.toList
  let sr := splitSign l
  let v : Int := sr.1 * (digitsToNat (takeDigits sr.2) : Int)
  if v > LONG_MAX then { value := LONG_MAX, erange := true }
  else if v < LONG_MIN then { value := LONG_MIN, erange := true }
  else { value := v, erange := false }

/-- The C++ `static_cast<int>` of a `long`, i.e. wrapping to 32 bits. -/
def wrapToInt (n : Int) : Int := (n + 2 ^ 31) % 2 ^ 32 - 2 ^ 31

/-- `GetIntParam`: fetch the parameter, run `strtol` on it, and detect
`errno` (ERANGE) or the clipping of the `long` value by the `int`-typed
local `retval`; either failure yields -1. -/
def GetIntParam (query : List (String × String)) (param : String) : Int :=
  match GetParam query param with
  | none => -1
  | some value =>
    let r := strtolBase10 value
    let retval := wrapToInt r.value
    if r.erange || decide (retval ≠ r.value) then -1 else retval

/-- `GetBoolParam`: true iff the parameter is present (once) with the
literal value "true". -/
def GetBoolParam (query : List (String × String)) (param : String) : Bool :=
  match GetParam query param with
  | some value => value == "true"
  | none => false

/-! ## Certificate model (log/cert.h, backed by OpenSSL; modelled as the
outcomes its accessors report) -/

/-- `Cert::Status` for `HasExtension`: the tri-valued TRUE / FALSE / ERROR. -/
inductive CStatus where
  | yes
  | no
  | err
deriving DecidableEq, Repr

/-- A loaded (or not) X.509 certificate, recorded through the outcomes of the
accessors the handlers call: `IsLoaded`, `HasExtension` for the embedded
SCT-list extension, `DerEncoding`, `SPKISha256Digest`, and the derived
`TbsCertificate` view (loaded state, `DeleteExtension` outcome, and the DER
of the TBS with and without the embedded-SCT-list extension deleted). -/
structure Cert where
  loaded : Bool
  hasEmbeddedSctList : CStatus
  der : Option String
  spkiSha256 : Option String
  tbsLoaded : Bool
  tbsDeleteOk : Bool
  tbsDerStripped : Option String
  tbsDerPlain : Option String
deriving DecidableEq, Repr

/-- `CertChain`: an ordered sequence of certificates, leaf first. -/
structure CertChain where
  certs : List Cert
deriving DecidableEq, Repr

/-- Modelled from the spec: `CertChain::IsLoaded` (log/cert.cc is not under
src/).  A chain is loaded iff it is non-empty: the data-model invariant is
"length ≥ 1 once non-empty", every appended certificate is loaded, and the
submission pipeline treats the unloaded chain as the "empty submission". -/
def CertChain.IsLoaded (c : CertChain) : Bool := !c.certs.isEmpty

/-- `SignedData`: a (key id, data, signature) triple. -/
structure SignedData where
  keyId : String
  data : String
  signature : String
deriving DecidableEq, Repr

/-! ## LogEntry (proto/ct.pb.h, the fields the handlers touch) -/

inductive EntryType where
  | x509
  | precert
  | signedData
  | xjson
  | unknown
deriving DecidableEq, Repr

structure X509EntryMsg where
  leafCertificate : String := ""
  certificateChain : List String := []
deriving DecidableEq, Repr

structure PreCertMsg where
  issuerKeyHash : String := ""
  tbsCertificate : String := ""
deriving DecidableEq, Repr

structure PrecertEntryMsg where
  preCert : PreCertMsg := {}
  preCertificate : String := ""
  precertificateChain : List String := []
deriving DecidableEq, Repr

structure SignedDataEntryMsg where
  keyid : String := ""
  data : String := ""
  signature : String := ""
deriving DecidableEq, Repr

/-- `ct::LogEntry`: the type tag and the three optional variant submessages.
A `mutable_*` call on the C++ proto creates the submessage with default
fields; an untouched submessage is `none`. -/
structure LogEntry where
  type : Option EntryType := none
  x509Entry : Option X509EntryMsg := none
  precertEntry : Option PrecertEntryMsg := none
  signedDataEntry : Option SignedDataEntryMsg := none
deriving DecidableEq, Repr

/-- A freshly default-constructed `ct::LogEntry` out-parameter. -/
def LogEntry.empty : LogEntry := {}

/-! ## CertSubmissionHandler (log/cert_submission_handler.cc) -/

/-- `CertSubmissionHandler::SerializedTbs`: check the certificate is loaded
and its embedded-SCT-list extension status is determinate, build the TBS
view, delete the extension when it is present, and DER-encode. -/
def SerializedTbs (cert : Cert) : Option String :=
  if !cert.loaded then none
  else if cert.hasEmbeddedSctList = CStatus.err then none
  else if !cert.tbsLoaded then none
  else if cert.hasEmbeddedSctList = CStatus.yes then
    if !cert.tbsDeleteOk then none else cert.tbsDerStripped
  else cert.tbsDerPlain

/-- `CertSubmissionHandler::X509ChainToEntry`: client-side reconstruction of
the `LogEntry` from an observed chain; returns the C++ bool together with
the (possibly partially mutated) out-parameter. -/
def X509ChainToEntry (chain : CertChain) (entry : LogEntry) : Bool × LogEntry :=
  match chain.certs with
  | [] => (false, entry)
  | leaf :: rest =>
    match leaf.hasEmbeddedSctList with
    | CStatus.err => (false, entry)
    | CStatus.yes =>
      if chain.certs.length < 2 then (false, entry)
      else
        let e1 := { entry with type := some EntryType.precert }
        match rest.head? with
        | none => (false, e1)
        | some issuer =>
          match issuer.spkiSha256 with
          | none => (false, e1)
          | some keyHash =>
            let p0 := e1.precertEntry.getD {}
            let pc0 := { p0.preCert with issuerKeyHash := keyHash }
            let p0' := { p0 with preCert := pc0 }
            let e2 := { e1 with precertEntry := some p0' }
            match SerializedTbs leaf with
            | none => (false, e2)
            | some tbs =>
              let p1 := e2.precertEntry.getD {}
              let pc1 := { p1.preCert with tbsCertificate := tbs }
              let p1' := { p1 with preCert := pc1 }
              (true, { e2 with precertEntry := some p1' })
    | CStatus.no =>
      let e1 := { entry with type := some EntryType.x509 }
      match leaf.der with
      | none => (false, e1)
      | some derCert =>
        let x0 := e1.x509Entry.getD {}
        (true, { e1 with x509Entry := some { x0 with leafCertificate := derCert } })

/-- `ProcessSignedDataSubmission`: run the checker; on success populate the
signed-data entry and set the type tag. -/
def ProcessSignedDataSubmission (check : SignedData → UStatus) (data : SignedData)
    (entry : LogEntry) : UStatus × LogEntry :=
  let st := check data
  if st.code ≠ CanonicalCode.ok then (st, entry)
  else
    let sde : SignedDataEntryMsg :=
      { keyid := data.keyId, data := data.data, signature := data.signature }
    (UStatus.OK, { entry with signedDataEntry := some sde, type := some EntryType.signedData })

/-- The DER-encoding loop over the issuer part of a validated x509 chain:
`add_certificate_chain` per certificate, failing with `internal`. -/
def AppendChainDers (certs : List Cert) (e : X509EntryMsg) : UStatus × X509EntryMsg :=
  match certs with
  | [] => (UStatus.OK, e)
  | c :: rest =>
    match c.der with
    | none => ({ code := CanonicalCode.internalError, msg := "could not DER-encode the chain" }, e)
    | some d => AppendChainDers rest { e with certificateChain := e.certificateChain ++ [d] }

/-- `ProcessX509Submission`: reject the unloaded chain, run the chain checker
(which may rewrite the chain), then DER-encode leaf and issuers into the
x509 entry and set the type tag.  The checker is an oracle parameter
returning its status and the possibly rewritten chain. -/
def ProcessX509Submission (check : CertChain → UStatus × CertChain) (chain : CertChain)
    (entry : LogEntry) : UStatus × LogEntry :=
  if !chain.IsLoaded then
    ({ code := CanonicalCode.invalidArgument, msg := "empty submission" }, entry)
  else
    let cr := check chain
    if cr.1.code ≠ CanonicalCode.ok then (cr.1, entry)
    else
      match cr.2.certs with
      | [] =>
        ({ code := CanonicalCode.internalError, msg := "could not DER-encode the chain" }, entry)
      | leaf :: rest =>
        match leaf.der with
        | none =>
          ({ code := CanonicalCode.internalError, msg := "could not DER-encode the chain" },
            entry)
        | some d =>
          let x0 := entry.x509Entry.getD {}
          let x1 := { x0 with leafCertificate := d }
          let r := AppendChainDers rest x1
          let entry2 := { entry with x509Entry := some r.2 }
          if r.1.code ≠ CanonicalCode.ok then (r.1, entry2)
          else (UStatus.OK, { entry2 with type := some EntryType.x509 })

/-- Result of `CertChecker::CheckPreCertChain`, which reports a status, may
rewrite the chain, and writes the issuer key hash and the stripped TBS
through its out-parameters (the entry's `pre_cert` fields). -/
structure PreCheckResult where
  status : UStatus
  chain : CertChain
  issuerKeyHash : String
  tbsCertificate : String

/-- The DER-encoding loop over the issuer part of a validated precert
chain. -/
def AppendPrecertDers (certs : List Cert) (e : PrecertEntryMsg) : UStatus × PrecertEntryMsg :=
  match certs with
  | [] => (UStatus.OK, e)
  | c :: rest =>
    match c.der with
    | none => ({ code := CanonicalCode.internalError, msg := "could not DER-encode the chain" }, e)
    | some d => AppendPrecertDers rest { e with precertificateChain := e.precertificateChain ++ [d] }

/-- `ProcessPreCertSubmission`: the precert entry is created (and its
`pre_cert` fields written through the checker's out-pointers) before the
status is inspected; on success the leaf and issuer DERs are added and the
type tag set. -/
def ProcessPreCertSubmission (check : CertChain → PreCheckResult) (chain : CertChain)
    (entry : LogEntry) : UStatus × LogEntry :=
  let p0 := entry.precertEntry.getD {}
  let r := check chain
  let p1 := { p0 with preCert :=
    { issuerKeyHash := r.issuerKeyHash, tbsCertificate := r.tbsCertificate } }
  let e1 := { entry with precertEntry := some p1 }
  if r.status.code ≠ CanonicalCode.ok then (r.status, e1)
  else
    match r.chain.certs with
    | [] =>
      ({ code := CanonicalCode.internalError, msg := "could not DER-encode the chain" }, e1)
    | leaf :: rest =>
      match leaf.der with
      | none =>
        ({ code := CanonicalCode.internalError, msg := "could not DER-encode the chain" }, e1)
      | some d =>
        let p2 := { p1 with preCertificate := d }
        let r2 := AppendPrecertDers rest p2
        let e2 := { entry with precertEntry := some r2.2 }
        if r2.1.code ≠ CanonicalCode.ok then (r2.1, e2)
        else (UStatus.OK, { e2 with type := some EntryType.precert })

/-! ## HTTP requests (evhttp request + parsed JSON body) -/

/-- One element of the request's `chain` JSON array, as seen after the JSON
string check and `LoadFromDerString`: either the element was not a JSON
string, or it is the certificate the base64-decoded bytes loaded into
(whose `loaded` flag records whether loading succeeded). -/
inductive ChainElem where
  | notAString : ChainElem
  | cert : Cert → ChainElem

/-- The parsed JSON object of a request body: the optional fields the
extractors look for.  `none` at a field means the field is absent or has
the wrong JSON type. -/
structure JsonBody where
  chain : Option (List ChainElem) := none
  keyid : Option String := none
  signature : Option String := none
  data : Option String := none

/-- An incoming `evhttp_request`: the method, the parsed query multimap
(`ParseQuery`), and the parsed JSON body (`none` when the body is not a
JSON object). -/
structure Request where
  method : Method
  query : List (String × String) := []
  body : Option JsonBody := none

/-- A task handed to the worker pool. -/
inductive PoolTask where
  | addChainTask : CertChain → PoolTask
  | addPreChainTask : CertChain → PoolTask
  | addSignedDataTask : SignedData → PoolTask
  | proxyTask : Request → PoolTask

/-- What a handler prologue does with a request: answer it directly, or
schedule a worker-pool task. -/
inductive Outcome where
  | respond : Response → Outcome
  | pooled : PoolTask → Outcome

/-! ## Request extraction (handler.cc anonymous namespace) -/

/-- The per-element loop of `ExtractChain`: JSON-string check, then
`LoadFromDerString` / `IsLoaded` check, appending each loaded cert. -/
def LoadChainElems (elems : List ChainElem) (acc : CertChain) : Except Response CertChain :=
  match elems with
  | [] => Except.ok acc
  | ChainElem.notAString :: _ =>
    Except.error (Response.error 400 "Unable to parse provided JSON.")
  | ChainElem.cert c :: rest =>
    if !c.loaded then Except.error (Response.error 400 "Unable to parse provided chain.")
    else LoadChainElems rest { certs := acc.certs ++ [c] }

/-- `ExtractChain`: POST check, JSON body check, `chain` array check, then
the element loop. -/
def ExtractChain (req : Request) : Except Response CertChain :=
  if req.method ≠ Method.post then
    Except.error (Response.error 405 "Method not allowed.")
  else
    match req.body with
    | none => Except.error (Response.error 400 "Unable to parse provided JSON.")
    | some body =>
      match body.chain with
      | none => Except.error (Response.error 400 "Unable to parse provided JSON.")
      | some elems => LoadChainElems elems { certs := [] }

/-- `ExtractSignedData`: POST check, JSON body check, then the `keyid`,
`signature` and `data` string fields, each base64-decoded (`b64` is the
external `FromBase64`). -/
def ExtractSignedData (b64 : String → String) (req : Request) : Except Response SignedData :=
  if req.method ≠ Method.post then
    Except.error (Response.error 405 "Method not allowed.")
  else
    match req.body with
    | none => Except.error (Response.error 400 "Unable to parse provided JSON.")
    | some body =>
      match body.keyid with
      | none => Except.error (Response.error 400 "Unable to parse provided JSON.")
      | some keyid =>
        match body.signature with
        | none => Except.error (Response.error 400 "Unable to parse provided JSON.")
        | some signat =>
          match body.data with
          | none => Except.error (Response.error 400 "Unable to parse provided JSON.")
          | some dat =>
            Except.ok { keyId := b64 keyid, data := b64 dat, signature := b64 signat }

/-! ## Replies for the add endpoints -/

/-- An SCT as the signing frontend returns it: the log key id, the
timestamp, and the serialized signature. -/
structure Sct where
  keyId : String
  timestamp : Int
  signature : String

/-- `AddChainReply`: map the queue status to the HTTP reply.  OK and
ALREADY_EXISTS get the SCT JSON; RESOURCE_EXHAUSTED gets 503; every other
failure gets 400, each with the status error message. -/
def AddChainReply (addStatus : UStatus) (sct : Sct) : Response :=
  if !addStatus.isOk && addStatus.code ≠ CanonicalCode.alreadyExists then
    Response.error
      (if addStatus.code = CanonicalCode.resourceExhausted then 503 else 400)
      addStatus.msg
  else
    Response.jsonOk 200
      [("sct_version", JVal.int 0), ("id", JVal.b64 sct.keyId),
        ("timestamp", JVal.int sct.timestamp), ("extensions", JVal.str ""),
        ("signature", JVal.str sct.signature)]

/-! ## The add handlers (prologue on the I/O thread) -/

def AddChain (req : Request) : Outcome :=
  match ExtractChain req with
  | Except.error r => Outcome.respond r
  | Except.ok chain => Outcome.pooled (PoolTask.addChainTask chain)

def AddPreChain (req : Request) : Outcome :=
  match ExtractChain req with
  | Except.error r => Outcome.respond r
  | Except.ok chain => Outcome.pooled (PoolTask.addPreChainTask chain)

def AddSignedData (b64 : String → String) (req : Request) : Outcome :=
  match ExtractSignedData b64 req with
  | Except.error r => Outcome.respond r
  | Except.ok data => Outcome.pooled (PoolTask.addSignedDataTask data)

/-! ## The add-chain worker path

`Frontend::QueueX509Entry` itself is external (cpp/log/frontend.cc is not
under src/), so its glue is modelled from the spec. -/

/-- Modelled from the spec: `Frontend::QueueX509Entry` (cpp/log/frontend.cc
is not under src/).  Per the spec's write path (decoder → submission
handler → chain validator → signing frontend) the frontend runs the
submission handler on a fresh entry; a failing submission status becomes
the queue status, a successful one is followed by the external
signing/queueing outcome `queueOutcome`. -/
def QueueX509Entry (check : CertChain → UStatus × CertChain) (queueOutcome : UStatus)
    (chain : CertChain) : UStatus × LogEntry :=
  let r := ProcessX509Submission check chain LogEntry.empty
  if r.1.code ≠ CanonicalCode.ok then r else (queueOutcome, r.2)

/-- `HttpHandler::BlockingAddChain`: queue the chain and reply. -/
def BlockingAddChain (check : CertChain → UStatus × CertChain) (queueOutcome : UStatus)
    (sct : Sct) (chain : CertChain) : Response :=
  AddChainReply (QueueX509Entry check queueOutcome chain).1 sct

/-! ## get-entries (handler.cc) -/

/-- A `LoggedCertificate` as the database scan yields it: its sequence
number, the outcomes of the three serializations, and their payloads. -/
structure StoredEntry where
  seq : Int
  leafOk : Bool
  extraOk : Bool
  sctOk : Bool
  leafInput : String
  extraData : String
  sctData : String
deriving DecidableEq, Repr

/-- `Database::ScanEntries(start)`: the stored entries from sequence number
`start` on, in ascending sequence order (the database list is kept in that
order). -/
def ScanEntries (db : List StoredEntry) (start : Int) : List StoredEntry :=
  db.filter (fun c => decide (start ≤ c.seq))

/-- The JSON object for one returned entry. -/
def EntryJson (c : StoredEntry) (includeScts : Bool) : JVal :=
  JVal.obj
    ([("leaf_input", JVal.b64 c.leafInput), ("extra_data", JVal.b64 c.extraData)] ++
      (if includeScts then [("sct", JVal.b64 c.sctData)] else []))

/-- The scan loop of `BlockingGetEntries`: `for (i = start; i <= end; ++i)`,
breaking when the iterator is exhausted or yields an out-of-order sequence
number, and failing with HTTP 500 when a serialization fails.  The fuel is
the iteration count `end - i + 1`. -/
def BGELoop (iter : List StoredEntry) (i : Int) (includeScts : Bool) (acc : List JVal) :
    Nat → Except Response (List JVal)
  | 0 => Except.ok acc
  | fuel + 1 =>
    match iter with
    | [] => Except.ok acc
    | c :: rest =>
      if c.seq ≠ i then Except.ok acc
      else if !c.leafOk || !c.extraOk || (includeScts && !c.sctOk) then
        Except.error (Response.error 500 "Serialization failed.")
      else BGELoop rest (i + 1) includeScts (acc ++ [EntryJson c includeScts]) fuel

/-- `HttpHandler::BlockingGetEntries`: scan, serialize, and reply; an empty
result is HTTP 400 "Entry not found." -/
def BlockingGetEntries (db : List StoredEntry) (start e : Int) (includeScts : Bool) :
    Response :=
  match BGELoop (ScanEntries db start) start includeScts [] (e - start + 1).toNat with
  | Except.error r => r
  | Except.ok entries =>
    if entries.length < 1 then Response.error 400 "Entry not found."
    else Response.jsonOk 200 [("entries", JVal.arr entries)]

/-- `HttpHandler::GetEntries`: GET check, `start` and `end` parsing and
validation, the cap `end = min(end, start + max_leaf_entries_per_response)`,
and the blocking scan (called synchronously). -/
def GetEntries (cap : Int) (db : List StoredEntry) (req : Request) : Response :=
  if req.method ≠ Method.get then Response.error 405 "Method not allowed."
  else
    let query := req.query
    let start := GetIntParam query "start"
    if start < 0 then Response.error 400 "Missing or invalid \"start\" parameter."
    else
      let e := GetIntParam query "end"
      if e < start then Response.error 400 "Missing or invalid \"end\" parameter."
      else
        let e2 := min e (start + cap)
        let includeScts := GetBoolParam query "include_scts"
        BlockingGetEntries db start e2 includeScts

/-! ## The other read handlers (handler.cc), over their external
collaborators -/

/-- The external collaborators the read handlers consult: `util::FromBase64`,
the serving STH from `LogLookup::GetSTH`, `LogLookup::AuditProof` (the leaf
index and audit path on a hit), `LogLookup::ConsistencyProof`, and the
trust store's root certificates. -/
structure Env where
  b64decode : String → String
  sthTreeSize : Int
  sthTimestamp : Int
  sthRootHash : String
  sthSignature : String
  auditProof : String → Int → Option (Int × List String)
  consistencyProof : Int → Int → List String
  trustedCerts : List Cert

/-- The root-encoding loop of `GetRoots`: DER-encode every trusted
certificate, failing as a whole if any encoding fails. -/
def RootsJson (certs : List Cert) : Option (List JVal) :=
  match certs with
  | [] => some []
  | c :: rest =>
    match c.der with
    | none => none
    | some d => (RootsJson rest).map (fun l => JVal.b64 d :: l)

/-- `HttpHandler::GetRoots`. -/
def GetRoots (env : Env) (req : Request) : Response :=
  if req.method ≠ Method.get then Response.error 405 "Method not allowed."
  else
    match RootsJson env.trustedCerts with
    | none => Response.error 500 "Serialisation failed."
    | some roots => Response.jsonOk 200 [("certificates", JVal.arr roots)]

/-- `HttpHandler::GetProof`. -/
def GetProof (env : Env) (req : Request) : Response :=
  if req.method ≠ Method.get then Response.error 405 "Method not allowed."
  else
    let query := req.query
    match GetParam query "hash" with
    | none => Response.error 400 "Missing or invalid \"hash\" parameter."
    | some b64Hash =>
      let hash := env.b64decode b64Hash
      if hash = "" then Response.error 400 "Invalid \"hash\" parameter."
      else
        let treeSize := GetIntParam query "tree_size"
        if treeSize < 0 || env.sthTreeSize < treeSize then
          Response.error 400 "Missing or invalid \"tree_size\" parameter."
        else
          match env.auditProof hash treeSize with
          | none => Response.error 400 "Couldn't find hash."
          | some proof =>
            Response.jsonOk 200
              [("leaf_index", JVal.int proof.1),
                ("audit_path", JVal.arr (proof.2.map JVal.b64))]

/-- `HttpHandler::GetSTH`. -/
def GetSTH (env : Env) (req : Request) : Response :=
  if req.method ≠ Method.get then Response.error 405 "Method not allowed."
  else
    Response.jsonOk 200
      [("tree_size", JVal.int env.sthTreeSize), ("timestamp", JVal.int env.sthTimestamp),
        ("sha256_root_hash", JVal.b64 env.sthRootHash),
        ("tree_head_signature", JVal.str env.sthSignature)]

/-- `HttpHandler::GetConsistency`. -/
def GetConsistency (env : Env) (req : Request) : Response :=
  if req.method ≠ Method.get then Response.error 405 "Method not allowed."
  else
    let query := req.query
    let first := GetIntParam query "first"
    if first < 0 then Response.error 400 "Missing or invalid \"first\" parameter."
    else
      let second := GetIntParam query "second"
      if second < first then Response.error 400 "Missing or invalid \"second\" parameter."
      else
        Response.jsonOk 200
          [("consistency", JVal.arr ((env.consistencyProof first second).map JVal.b64))]

/-! ## Proxy interceptor and handler registration (handler.cc) -/

/-- The `HttpHandler` state the interceptor reads: the cached staleness
flag `node_is_stale_` (kept under the handler mutex). -/
structure HState where
  nodeIsStale : Bool

/-- `HttpHandler::IsNodeStale`: read the cached flag under the mutex. -/
def IsNodeStale (s : HState) : Bool := s.nodeIsStale

/-- `StatsHandlerInterceptor`: record latency (an external side effect) and
invoke the wrapped callback. -/
def StatsHandlerInterceptor (path : String) (cb : Request → Outcome) (req : Request) :
    Outcome :=
  let _ := path
  cb req

/-- `HttpHandler::ProxyInterceptor`: if the node is stale, hand the request
to the worker pool for `Proxy::ProxyRequest`; otherwise run the local
handler on the calling thread. -/
def ProxyInterceptor (s : HState) (localHandler : Request → Outcome) (req : Request) :
    Outcome :=
  if IsNodeStale s then Outcome.pooled (PoolTask.proxyTask req)
  else localHandler req

/-- `HttpHandler::AddProxyWrappedHandler`: register, at `path`, the local
handler wrapped in the stats interceptor and then the proxy interceptor. -/
def AddProxyWrappedHandler (server : List (String × (HState → Request → Outcome)))
    (path : String) (localHandler : Request → Outcome) :
    List (String × (HState → Request → Outcome)) :=
  server ++ [(path, fun s req => ProxyInterceptor s (StatsHandlerInterceptor path localHandler) req)]

/-- The eight endpoint handlers `HttpHandler::Add` binds (each a bound
method of the handler). -/
structure EndpointHandlers where
  getEntriesH : Request → Outcome
  getRootsH : Request → Outcome
  getProofH : Request → Outcome
  getSTHH : Request → Outcome
  getConsistencyH : Request → Outcome
  addChainH : Request → Outcome
  addPreChainH : Request → Outcome
  addSignedDataH : Request → Outcome

/-- `HttpHandler::Add`: register every endpoint through
`AddProxyWrappedHandler`, with `get-roots` gated on the presence of a cert
checker, the add-chain endpoints on the frontend plus `accept_certificates`,
and `add-signed-data` on the frontend plus `accept_signed_data`. -/
def HttpHandlerAdd (H : EndpointHandlers)
    (hasCertChecker hasFrontend acceptCertificates acceptSignedData : Bool) :
    List (String × (HState → Request → Outcome)) :=
  let s1 := AddProxyWrappedHandler [] "/ct/v1/get-entries" H.getEntriesH
  let s2 := if hasCertChecker then AddProxyWrappedHandler s1 "/ct/v1/get-roots" H.getRootsH
    else s1
  let s3 := AddProxyWrappedHandler s2 "/ct/v1/get-proof-by-hash" H.getProofH
  let s4 := AddProxyWrappedHandler s3 "/ct/v1/get-sth" H.getSTHH
  let s5 := AddProxyWrappedHandler s4 "/ct/v1/get-sth-consistency" H.getConsistencyH
  let s6 := if hasFrontend && acceptCertificates then
      AddProxyWrappedHandler (AddProxyWrappedHandler s5 "/ct/v1/add-chain" H.addChainH)
        "/ct/v1/add-pre-chain" H.addPreChainH
    else s5
  if hasFrontend && acceptSignedData then
    AddProxyWrappedHandler s6 "/ct/v1/add-signed-data" H.addSignedDataH
  else s6

/-! ## LoggedCertificate::CopyFromClientLogEntry (cpp/log/logged_certificate.cc) -/

/-- The SCT stored in a `LoggedCertificate`'s contents. -/
structure StoredSct where
  version : Int := 0
  timestamp : Int := 0
  extensions : String := ""
deriving DecidableEq, Repr

/-- The `timestamped_entry` of a client log entry's Merkle leaf: the entry
type, the timestamp, the extensions, and the `signed_entry` payloads the
copy reads (the x509 DER, the precert pair, and the signed-data pair). -/
structure TimestampedEntry where
  entryType : EntryType
  timestamp : Int
  extensions : String
  x509 : String
  precertIssuerKeyHash : String
  precertTbs : String
  dataKeyid : String
  dataPayload : String

/-- `AsyncLogClient::Entry`: the Merkle leaf's timestamped entry and the
(incomplete) accompanying `LogEntry`. -/
structure ClientEntry where
  leafTE : TimestampedEntry
  entry : LogEntry

/-- A `LoggedCertificate`'s contents: the SCT and the log entry. -/
structure LoggedCert where
  sct : StoredSct
  entry : LogEntry

/-- `LoggedCertificate::CopyFromClientLogEntry`: reject unsupported entry
types before clearing; otherwise clear, copy the SCT fields, copy the
incomplete entry, force its type, and fill in the variant payload from the
leaf. -/
def CopyFromClientLogEntry (self : LoggedCert) (ce : ClientEntry) : Bool × LoggedCert :=
  let t := ce.leafTE.entryType
  if t ≠ EntryType.x509 ∧ t ≠ EntryType.precert ∧ t ≠ EntryType.signedData then
    (false, self)
  else
    let sct : StoredSct :=
      { version := 1, timestamp := ce.leafTE.timestamp, extensions := ce.leafTE.extensions }
    let le0 := { ce.entry with type := some t }
    match t with
    | EntryType.x509 =>
      let x0 := le0.x509Entry.getD {}
      let x1 := { x0 with leafCertificate := ce.leafTE.x509 }
      (true, { sct := sct, entry := { le0 with x509Entry := some x1 } })
    | EntryType.precert =>
      let p0 := le0.precertEntry.getD {}
      let pc : PreCertMsg :=
        { issuerKeyHash := ce.leafTE.precertIssuerKeyHash,
          tbsCertificate := ce.leafTE.precertTbs }
      let p1 := { p0 with preCert := pc }
      (true, { sct := sct, entry := { le0 with precertEntry := some p1 } })
    | EntryType.signedData =>
      let s0 := le0.signedDataEntry.getD {}
      let s1 := { s0 with keyid := ce.leafTE.dataKeyid, data := ce.leafTE.dataPayload }
      (true, { sct := sct, entry := { le0 with signedDataEntry := some s1 } })
    | _ => (false, self)

/-! ## Auxiliary definitions used by the theorems and witnesses -/

/-- A trivial external environment used in witnesses. -/
def env0 : Env :=
  { b64decode := fun s => s, sthTreeSize := 0, sthTimestamp := 0, sthRootHash := "",
    sthSignature := "", auditProof := fun _ _ => none, consistencyProof := fun _ _ => [],
    trustedCerts := [] }

/-- A certificate with every accessor succeeding, used in witnesses. -/
def sampleCert : Cert :=
  { loaded := true, hasEmbeddedSctList := CStatus.no, der := some "LEAFDER",
    spkiSha256 := some "SPKIHASH", tbsLoaded := true, tbsDeleteOk := true,
    tbsDerStripped := some "TBSSTRIPPED", tbsDerPlain := some "TBSPLAIN" }

/-- A precert checker that accepts every chain, used in witnesses. -/
def preCheckOk (c : CertChain) : PreCheckResult :=
  { status := UStatus.OK, chain := c, issuerKeyHash := "IKH", tbsCertificate := "TBS" }

/-- Every callback registered in a server list is a proxy-wrapped local
handler. -/
def AllWrapped (server : List (String × (HState → Request → Outcome))) : Prop :=
  ∀ p cb, (p, cb) ∈ server → ∃ lh, cb = fun s req => ProxyInterceptor s lh req

/-- A trivial local handler used in the C7 witness. -/
def trivialLocal : Request → Outcome := fun _ => Outcome.respond (Response.error 400 "x")

/-- The trivial set of endpoint handlers used in the C7 witness. -/
def H0 : EndpointHandlers :=
  { getEntriesH := trivialLocal, getRootsH := trivialLocal, getProofH := trivialLocal,
    getSTHH := trivialLocal, getConsistencyH := trivialLocal, addChainH := trivialLocal,
    addPreChainH := trivialLocal, addSignedDataH := trivialLocal }

/-- A leaf carrying the embedded-SCT-list extension with every accessor
succeeding, used for C2. -/
def c2Leaf : Cert :=
  { loaded := true, hasEmbeddedSctList := CStatus.yes, der := some "LEAFDER",
    spkiSha256 := some "LEAFSPKI", tbsLoaded := true, tbsDeleteOk := true,
    tbsDerStripped := some "TBSSTRIPPED", tbsDerPlain := some "TBSPLAIN" }

/-- A canonical decimal numeral, following the spec's words "the parsed
value": the value of a non-empty all-digit list of characters. -/
def decimalListVal (l : List Char) : Option Nat :=
  if l ≠ [] ∧ l.all isDigitChar then
    some (l.foldl (fun a c => a * 10 + (c.toNat - 48)) 0)
  else none

/-- A canonical decimal numeral as a string, following the spec's words. -/
def natOfDecimal (s : String) : Option Nat := decimalListVal s.toList

/-- The number of entry records in a get-entries JSON reply. -/
def entryCount : Response → Option Nat
  | Response.jsonOk _ fields =>
    match fields with
    | [(_, JVal.arr es)] => some es.length
    | _ => none
  | _ => none

/-- A stored entry at sequence number `i` whose serializations all
succeed. -/
def c1Entry (i : Int) : StoredEntry :=
  { seq := i, leafOk := true, extraOk := true, sctOk := true, leafInput := "",
    extraData := "", sctData := "" }

/-- A database holding `n` consecutive fully serializable entries starting
at sequence number `i`. -/
def FullRun (i : Int) : Nat → List StoredEntry
  | 0 => []
  | n + 1 => c1Entry i :: FullRun (i + 1) n

/-! ## Theorems -/

/-- C4: for every submission that reaches the reply stage, `AddChainReply`
maps the queue status to the HTTP response: OK yields 200 with the SCT JSON
body; ALREADY_EXISTS yields 200 with the SCT JSON body exactly as it would
for a fresh OK status; RESOURCE_EXHAUSTED yields 503 with the error
message; every other non-OK status yields 400 with the error message. -/
theorem C4_add_chain_reply_status_mapping (st : UStatus) (sct : Sct) :
    (st.code = CanonicalCode.ok →
      AddChainReply st sct = Response.jsonOk 200
        [("sct_version", JVal.int 0), ("id", JVal.b64 sct.keyId),
          ("timestamp", JVal.int sct.timestamp), ("extensions", JVal.str ""),
          ("signature", JVal.str sct.signature)]) ∧
    (st.code = CanonicalCode.alreadyExists →
      ∀ st' : UStatus, st'.code = CanonicalCode.ok →
        AddChainReply st sct = AddChainReply st' sct) ∧
    (st.code = CanonicalCode.resourceExhausted →
      AddChainReply st sct = Response.error 503 st.msg) ∧
    (st.code ≠ CanonicalCode.ok → st.code ≠ CanonicalCode.alreadyExists →
      st.code ≠ CanonicalCode.resourceExhausted →
      AddChainReply st sct = Response.error 400 st.msg) := by
  refine ⟨fun h1 => ?_, fun h1 st' h2 => ?_, fun h1 => ?_, fun h1 h2 h3 => ?_⟩
  · simp [AddChainReply, UStatus.isOk, h1]
  · simp [AddChainReply, UStatus.isOk, h1, h2]
  · simp [AddChainReply, UStatus.isOk, h1]
  · simp [AddChainReply, UStatus.isOk, h1, h2, h3]

/-- Witness for C4 at the four concrete statuses. -/
theorem C4_add_chain_reply_status_mapping_witness :
    AddChainReply { code := CanonicalCode.ok, msg := "" } { keyId := "K", timestamp := 7, signature := "S" } =
      Response.jsonOk 200
        [("sct_version", JVal.int 0), ("id", JVal.b64 "K"), ("timestamp", JVal.int 7),
          ("extensions", JVal.str ""), ("signature", JVal.str "S")] ∧
    AddChainReply { code := CanonicalCode.alreadyExists, msg := "dup" }
        { keyId := "K", timestamp := 7, signature := "S" } =
      AddChainReply { code := CanonicalCode.ok, msg := "" }
        { keyId := "K", timestamp := 7, signature := "S" } ∧
    AddChainReply { code := CanonicalCode.resourceExhausted, msg := "busy" }
        { keyId := "K", timestamp := 7, signature := "S" } =
      Response.error 503 "busy" ∧
    AddChainReply { code := CanonicalCode.unauthenticated, msg := "bad" }
        { keyId := "K", timestamp := 7, signature := "S" } =
      Response.error 400 "bad" := by
  refine ⟨?_, ?_, ?_, ?_⟩
  · exact (C4_add_chain_reply_status_mapping _ _).1 rfl
  · exact (C4_add_chain_reply_status_mapping _ _).2.1 rfl _ rfl
  · exact (C4_add_chain_reply_status_mapping _ _).2.2.1 rfl
  · exact (C4_add_chain_reply_status_mapping _ _).2.2.2 (by decide) (by decide) (by decide)

/-- C9: whenever the signed-data check fails, `ProcessSignedDataSubmission`
returns exactly the checker's status and leaves the output entry completely
unmodified. -/
theorem C9_signed_data_check_failure_leaves_entry (check : SignedData → UStatus)
    (data : SignedData) (entry : LogEntry)
    (h : (check data).code ≠ CanonicalCode.ok) :
    ProcessSignedDataSubmission check data entry = (check data, entry) := by
  simp [ProcessSignedDataSubmission, h]

/-- Witness for C9 at a concrete failing checker. -/
theorem C9_signed_data_check_failure_leaves_entry_witness :
    (({ code := CanonicalCode.unauthenticated, msg := "bad signature" } : UStatus)).code ≠
      CanonicalCode.ok ∧
    ProcessSignedDataSubmission
        (fun _ => { code := CanonicalCode.unauthenticated, msg := "bad signature" })
        { keyId := "k", data := "d", signature := "s" } LogEntry.empty =
      ({ code := CanonicalCode.unauthenticated, msg := "bad signature" }, LogEntry.empty) :=
  ⟨by decide,
    C9_signed_data_check_failure_leaves_entry
      (fun _ => { code := CanonicalCode.unauthenticated, msg := "bad signature" })
      { keyId := "k", data := "d", signature := "s" } LogEntry.empty (by decide)⟩

/-- C10: for every client log entry whose leaf timestamped-entry type is
none of X509_ENTRY, PRECERT_ENTRY or SIGNED_DATA_ENTRY,
`CopyFromClientLogEntry` returns false and leaves the object unchanged. -/
theorem C10_copy_rejects_unknown_type_unchanged (self : LoggedCert) (ce : ClientEntry)
    (h1 : ce.leafTE.entryType ≠ EntryType.x509)
    (h2 : ce.leafTE.entryType ≠ EntryType.precert)
    (h3 : ce.leafTE.entryType ≠ EntryType.signedData) :
    CopyFromClientLogEntry self ce = (false, self) := by
  rw [CopyFromClientLogEntry]
  rw [if_pos ⟨h1, h2, h3⟩]

/-- Witness for C10 at a concrete X_JSON-typed client entry. -/
theorem C10_copy_rejects_unknown_type_unchanged_witness :
    (EntryType.xjson ≠ EntryType.x509 ∧ EntryType.xjson ≠ EntryType.precert ∧
      EntryType.xjson ≠ EntryType.signedData) ∧
    CopyFromClientLogEntry
        { sct := { version := 9, timestamp := 9, extensions := "e" }, entry := LogEntry.empty }
        { leafTE :=
            { entryType := EntryType.xjson, timestamp := 3, extensions := "x", x509 := "a",
              precertIssuerKeyHash := "b", precertTbs := "c", dataKeyid := "d",
              dataPayload := "e" },
          entry := LogEntry.empty } =
      (false,
        { sct := { version := 9, timestamp := 9, extensions := "e" }, entry := LogEntry.empty }) :=
  ⟨by decide,
    C10_copy_rejects_unknown_type_unchanged _ _ (by decide) (by decide) (by decide)⟩

/-- C6: an empty (unloaded) chain makes `ProcessX509Submission` return
invalid_argument "empty submission" without invoking the chain checker (the
result is the same for every checker), an empty `chain` JSON array extracts
to exactly such a chain, and the add-chain worker path answers the
submission with HTTP 400 "empty submission". -/
theorem C6_empty_submission_rejected (check : CertChain → UStatus × CertChain)
    (queueOutcome : UStatus) (sct : Sct) (chain : CertChain) (entry : LogEntry)
    (q : List (String × String)) (b : JsonBody)
    (hchain : chain.certs = []) (hbody : b.chain = some []) :
    ProcessX509Submission check chain entry =
      ({ code := CanonicalCode.invalidArgument, msg := "empty submission" }, entry) ∧
    ExtractChain { method := Method.post, query := q, body := some b } =
      Except.ok { certs := [] } ∧
    BlockingAddChain check queueOutcome sct chain = Response.error 400 "empty submission" := by
  have hload : chain.IsLoaded = false := by
    simp [CertChain.IsLoaded, hchain]
  refine ⟨?_, ?_, ?_⟩
  · simp [ProcessX509Submission, hload]
  · simp [ExtractChain, hbody, LoadChainElems]
  · simp [BlockingAddChain, QueueX509Entry, ProcessX509Submission, hload, AddChainReply,
      UStatus.isOk]

/-- Witness for C6 at a concrete empty submission. -/
theorem C6_empty_submission_rejected_witness :
    ProcessX509Submission (fun c => (UStatus.OK, c)) { certs := [] } LogEntry.empty =
      ({ code := CanonicalCode.invalidArgument, msg := "empty submission" }, LogEntry.empty) ∧
    ExtractChain { method := Method.post, query := [], body := some { chain := some [] } } =
      Except.ok { certs := [] } ∧
    BlockingAddChain (fun c => (UStatus.OK, c)) UStatus.OK
        { keyId := "K", timestamp := 1, signature := "S" } { certs := [] } =
      Response.error 400 "empty submission" :=
  C6_empty_submission_rejected (fun c => (UStatus.OK, c)) UStatus.OK
    { keyId := "K", timestamp := 1, signature := "S" } { certs := [] } LogEntry.empty
    [] { chain := some [] } rfl rfl

/-- C8: every write endpoint answers a non-POST request with HTTP 405 and
does nothing else (no worker task is scheduled), and every read endpoint
answers a non-GET request with HTTP 405. -/
theorem C8_method_guard (env : Env) (cap : Int) (db : List StoredEntry)
    (b64 : String → String) (req : Request) :
    (req.method ≠ Method.post →
      AddChain req = Outcome.respond (Response.error 405 "Method not allowed.") ∧
      AddPreChain req = Outcome.respond (Response.error 405 "Method not allowed.") ∧
      AddSignedData b64 req = Outcome.respond (Response.error 405 "Method not allowed.")) ∧
    (req.method ≠ Method.get →
      GetEntries cap db req = Response.error 405 "Method not allowed." ∧
      GetRoots env req = Response.error 405 "Method not allowed." ∧
      GetProof env req = Response.error 405 "Method not allowed." ∧
      GetSTH env req = Response.error 405 "Method not allowed." ∧
      GetConsistency env req = Response.error 405 "Method not allowed.") := by
  constructor
  · intro h
    refine ⟨?_, ?_, ?_⟩
    · simp [AddChain, ExtractChain, h]
    · simp [AddPreChain, ExtractChain, h]
    · simp [AddSignedData, ExtractSignedData, h]
  · intro h
    refine ⟨?_, ?_, ?_, ?_, ?_⟩
    · simp [GetEntries, h]
    · simp [GetRoots, h]
    · simp [GetProof, h]
    · simp [GetSTH, h]
    · simp [GetConsistency, h]

/-- Witness for C8 at a concrete PUT request. -/
theorem C8_method_guard_witness :
    (AddChain { method := Method.put } =
        Outcome.respond (Response.error 405 "Method not allowed.") ∧
      AddPreChain { method := Method.put } =
        Outcome.respond (Response.error 405 "Method not allowed.") ∧
      AddSignedData (fun s => s) { method := Method.put } =
        Outcome.respond (Response.error 405 "Method not allowed.")) ∧
    (GetEntries 1000 [] { method := Method.put } = Response.error 405 "Method not allowed." ∧
      GetRoots env0 { method := Method.put } = Response.error 405 "Method not allowed." ∧
      GetProof env0 { method := Method.put } = Response.error 405 "Method not allowed." ∧
      GetSTH env0 { method := Method.put } = Response.error 405 "Method not allowed." ∧
      GetConsistency env0 { method := Method.put } =
        Response.error 405 "Method not allowed.") :=
  ⟨(C8_method_guard env0 1000 [] (fun s => s) { method := Method.put }).1 (by decide),
    (C8_method_guard env0 1000 [] (fun s => s) { method := Method.put }).2 (by decide)⟩

/-- C5: whenever one of the three submission processors returns OK, the
returned log entry's type tag matches the populated variant payload and no
fields of another variant are set (starting from the freshly constructed
out-parameter). -/
theorem C5_variant_discipline :
    (∀ (check : SignedData → UStatus) (data : SignedData),
      (ProcessSignedDataSubmission check data LogEntry.empty).1.code = CanonicalCode.ok →
      (ProcessSignedDataSubmission check data LogEntry.empty).2 =
        { type := some EntryType.signedData,
          signedDataEntry :=
            some { keyid := data.keyId, data := data.data, signature := data.signature },
          x509Entry := none, precertEntry := none }) ∧
    (∀ (check : CertChain → UStatus × CertChain) (chain : CertChain),
      (ProcessX509Submission check chain LogEntry.empty).1.code = CanonicalCode.ok →
      (ProcessX509Submission check chain LogEntry.empty).2.type = some EntryType.x509 ∧
      (ProcessX509Submission check chain LogEntry.empty).2.x509Entry.isSome = true ∧
      (ProcessX509Submission check chain LogEntry.empty).2.precertEntry = none ∧
      (ProcessX509Submission check chain LogEntry.empty).2.signedDataEntry = none) ∧
    (∀ (check : CertChain → PreCheckResult) (chain : CertChain),
      (ProcessPreCertSubmission check chain LogEntry.empty).1.code = CanonicalCode.ok →
      (ProcessPreCertSubmission check chain LogEntry.empty).2.type = some EntryType.precert ∧
      (ProcessPreCertSubmission check chain LogEntry.empty).2.precertEntry.isSome = true ∧
      (ProcessPreCertSubmission check chain LogEntry.empty).2.x509Entry = none ∧
      (ProcessPreCertSubmission check chain LogEntry.empty).2.signedDataEntry = none) := by
  refine ⟨?_, ?_, ?_⟩
  · intro check data h
    by_cases hc : (check data).code = CanonicalCode.ok
    · simp [ProcessSignedDataSubmission, hc, LogEntry.empty]
    · simp [ProcessSignedDataSubmission, hc] at h
  · intro check chain h
    by_cases hl : chain.IsLoaded
    · rcases hck : check chain with ⟨st, chain2⟩
      by_cases hst : st.code = CanonicalCode.ok
      · rcases hcs : chain2.certs with _ | ⟨leaf, rest⟩
        · simp [ProcessX509Submission, hl, hck, hst, hcs] at h
        · rcases hder : leaf.der with _ | d
          · simp [ProcessX509Submission, hl, hck, hst, hcs, hder] at h
          · by_cases hst2 : (AppendChainDers rest
                { leafCertificate := d, certificateChain := [] }).1.code = CanonicalCode.ok
            · simp [ProcessX509Submission, hl, hck, hst, hcs, hder, hst2, LogEntry.empty]
            · simp [ProcessX509Submission, hl, hck, hst, hcs, hder, hst2, LogEntry.empty] at h
      · simp [ProcessX509Submission, hl, hck, hst] at h
    · simp [ProcessX509Submission, hl] at h
  · intro check chain h
    rcases hck : check chain with ⟨st, chain2, ikh, tbs⟩
    by_cases hst : st.code = CanonicalCode.ok
    · rcases hcs : chain2.certs with _ | ⟨leaf, rest⟩
      · simp [ProcessPreCertSubmission, hck, hst, hcs, LogEntry.empty] at h
      · rcases hder : leaf.der with _ | d
        · simp [ProcessPreCertSubmission, hck, hst, hcs, hder, LogEntry.empty] at h
        · by_cases hst2 : (AppendPrecertDers rest
              { preCert := { issuerKeyHash := ikh, tbsCertificate := tbs },
                preCertificate := d,
                precertificateChain := [] }).1.code = CanonicalCode.ok
          · simp [ProcessPreCertSubmission, hck, hst, hcs, hder, hst2, LogEntry.empty]
          · simp [ProcessPreCertSubmission, hck, hst, hcs, hder, hst2, LogEntry.empty] at h
    · simp [ProcessPreCertSubmission, hck, hst, LogEntry.empty] at h

/-- Witness for C5 at concrete successful submissions. -/
theorem C5_variant_discipline_witness :
    (ProcessSignedDataSubmission (fun _ => UStatus.OK)
        { keyId := "k", data := "d", signature := "s" } LogEntry.empty).2 =
      { type := some EntryType.signedData,
        signedDataEntry := some { keyid := "k", data := "d", signature := "s" },
        x509Entry := none, precertEntry := none } ∧
    ((ProcessX509Submission (fun c => (UStatus.OK, c)) { certs := [sampleCert] }
        LogEntry.empty).2.type = some EntryType.x509 ∧
      (ProcessX509Submission (fun c => (UStatus.OK, c)) { certs := [sampleCert] }
        LogEntry.empty).2.x509Entry.isSome = true ∧
      (ProcessX509Submission (fun c => (UStatus.OK, c)) { certs := [sampleCert] }
        LogEntry.empty).2.precertEntry = none ∧
      (ProcessX509Submission (fun c => (UStatus.OK, c)) { certs := [sampleCert] }
        LogEntry.empty).2.signedDataEntry = none) ∧
    ((ProcessPreCertSubmission preCheckOk { certs := [sampleCert] }
        LogEntry.empty).2.type = some EntryType.precert ∧
      (ProcessPreCertSubmission preCheckOk { certs := [sampleCert] }
        LogEntry.empty).2.precertEntry.isSome = true ∧
      (ProcessPreCertSubmission preCheckOk { certs := [sampleCert] }
        LogEntry.empty).2.x509Entry = none ∧
      (ProcessPreCertSubmission preCheckOk { certs := [sampleCert] }
        LogEntry.empty).2.signedDataEntry = none) :=
  ⟨C5_variant_discipline.1 (fun _ => UStatus.OK) { keyId := "k", data := "d", signature := "s" }
      (by decide),
    C5_variant_discipline.2.1 (fun c => (UStatus.OK, c)) { certs := [sampleCert] } rfl,
    C5_variant_discipline.2.2 preCheckOk { certs := [sampleCert] } rfl⟩

theorem allWrapped_nil : AllWrapped [] := by
  intro p cb h
  exact absurd h (List.not_mem_nil _)

theorem allWrapped_add (server : List (String × (HState → Request → Outcome)))
    (path : String) (localHandler : Request → Outcome) (h : AllWrapped server) :
    AllWrapped (AddProxyWrappedHandler server path localHandler) := by
  intro p cb hmem
  rw [AddProxyWrappedHandler, List.mem_append] at hmem
  rcases hmem with hmem | hmem
  · exact h p cb hmem
  · rcases List.mem_singleton.mp hmem with heq
    exact ⟨StatsHandlerInterceptor path localHandler,
      congrArg Prod.snd heq⟩

theorem allWrapped_HttpHandlerAdd (H : EndpointHandlers)
    (hasCertChecker hasFrontend acceptCertificates acceptSignedData : Bool) :
    AllWrapped (HttpHandlerAdd H hasCertChecker hasFrontend acceptCertificates
      acceptSignedData) := by
  rw [HttpHandlerAdd]
  repeat'
    first
    | exact allWrapped_nil
    | apply allWrapped_add
    | split

/-- C7: every endpoint registered by `HttpHandler::Add` is wrapped in the
proxy interceptor uniformly: on a request, if the cached staleness flag is
true the request is handed to the worker pool as a proxy-forwarding task
and the local handler is never invoked (the outcome does not depend on it);
if the flag is false the wrapped local handler runs on the calling
thread. -/
theorem C7_proxy_interceptor_dispatch (H : EndpointHandlers)
    (hasCertChecker hasFrontend acceptCertificates acceptSignedData : Bool)
    (p : String) (cb : HState → Request → Outcome)
    (hmem : (p, cb) ∈ HttpHandlerAdd H hasCertChecker hasFrontend acceptCertificates
      acceptSignedData) :
    ∃ lh : Request → Outcome,
      (∀ s req, IsNodeStale s = true → cb s req = Outcome.pooled (PoolTask.proxyTask req)) ∧
      (∀ s req, IsNodeStale s = false → cb s req = lh req) := by
  obtain ⟨lh, rfl⟩ := allWrapped_HttpHandlerAdd H hasCertChecker hasFrontend
    acceptCertificates acceptSignedData p cb hmem
  refine ⟨lh, fun s req hs => ?_, fun s req hs => ?_⟩
  · simp [ProxyInterceptor, hs]
  · simp [ProxyInterceptor, hs]

/-- Witness for C7 at the first registered endpoint of a concrete
configuration. -/
theorem C7_proxy_interceptor_dispatch_witness :
    ∃ lh : Request → Outcome,
      (∀ s req, IsNodeStale s = true →
        (fun s req => ProxyInterceptor s
          (StatsHandlerInterceptor "/ct/v1/get-entries" H0.getEntriesH) req) s req =
          Outcome.pooled (PoolTask.proxyTask req)) ∧
      (∀ s req, IsNodeStale s = false →
        (fun s req => ProxyInterceptor s
          (StatsHandlerInterceptor "/ct/v1/get-entries" H0.getEntriesH) req) s req = lh req) :=
  C7_proxy_interceptor_dispatch H0 true true true true "/ct/v1/get-entries" _
    (List.Mem.head _)

/-- C2 counterexample: a loaded single-certificate chain whose leaf carries
the embedded-SCT-list extension and DER-encodes fine.  The claim's case
split ("if the extension is present and the chain has an issuer …
PrecertEntry; otherwise … X509Entry" with failure only on introspection or
encoding errors) puts this input in the X509Entry-returning-true case, but
`X509ChainToEntry` returns false (the "need issuer" branch). -/
theorem C2_counterexample :
    ({ certs := [c2Leaf] } : CertChain).IsLoaded = true ∧
    c2Leaf.hasEmbeddedSctList = CStatus.yes ∧
    c2Leaf.der = some "LEAFDER" ∧
    ({ certs := [c2Leaf] } : CertChain).certs.length < 2 ∧
    (X509ChainToEntry { certs := [c2Leaf] } LogEntry.empty).1 = false := by
  decide

/-- C2 as amended: `X509ChainToEntry` inspects the leaf for the
embedded-SCT-list extension; if present and the chain has an issuer it
returns true emitting a PrecertEntry with the issuer's SPKI hash and the
stripped TBS; if present and the chain has no issuer it returns false; if
absent it returns true emitting an X509Entry with the leaf's DER; on any
introspection or encoding failure (including an unloaded chain or an
indeterminate extension check) it returns false. -/
theorem C2_x509_chain_to_entry_amended (chain : CertChain) (entry : LogEntry) :
    (chain.certs = [] → X509ChainToEntry chain entry = (false, entry)) ∧
    (∀ leaf rest, chain.certs = leaf :: rest →
      (leaf.hasEmbeddedSctList = CStatus.err →
        X509ChainToEntry chain entry = (false, entry)) ∧
      (leaf.hasEmbeddedSctList = CStatus.yes → rest = [] →
        (X509ChainToEntry chain entry).1 = false) ∧
      (∀ issuer rest2, rest = issuer :: rest2 →
        leaf.hasEmbeddedSctList = CStatus.yes →
        (∀ keyHash tbs, issuer.spkiSha256 = some keyHash → SerializedTbs leaf = some tbs →
          X509ChainToEntry chain LogEntry.empty =
            (true,
              { type := some EntryType.precert,
                precertEntry :=
                  some { preCert := { issuerKeyHash := keyHash, tbsCertificate := tbs } },
                x509Entry := none, signedDataEntry := none })) ∧
        (issuer.spkiSha256 = none → (X509ChainToEntry chain entry).1 = false) ∧
        (SerializedTbs leaf = none → (X509ChainToEntry chain entry).1 = false)) ∧
      (leaf.hasEmbeddedSctList = CStatus.no →
        (∀ d, leaf.der = some d →
          X509ChainToEntry chain LogEntry.empty =
            (true,
              { type := some EntryType.x509,
                x509Entry := some { leafCertificate := d, certificateChain := [] },
                precertEntry := none, signedDataEntry := none })) ∧
        (leaf.der = none → (X509ChainToEntry chain entry).1 = false))) := by
  constructor
  · intro hc
    simp [X509ChainToEntry, hc]
  · intro leaf rest hc
    refine ⟨?_, ?_, ?_, ?_⟩
    · intro hext
      simp [X509ChainToEntry, hc, hext]
    · intro hext hrest
      subst hrest
      simp [X509ChainToEntry, hc, hext]
    · intro issuer rest2 hrest hext
      subst hrest
      have hlen : ¬ chain.certs.length < 2 := by
        rw [hc]
        simp only [List.length_cons]
        omega
      refine ⟨?_, ?_, ?_⟩
      · intro keyHash tbs hsp htbs
        simp [X509ChainToEntry, hc, hext, hlen, hsp, htbs, LogEntry.empty]
      · intro hsp
        simp only [X509ChainToEntry, hc, hext, hsp, List.head?]
        split
        · rfl
        · rfl
      · intro htbs
        rcases hsp : issuer.spkiSha256 with _ | kh
        · simp only [X509ChainToEntry, hc, hext, hsp, List.head?]
          split
          · rfl
          · rfl
        · simp only [X509ChainToEntry, hc, hext, hsp, htbs, List.head?]
          split
          · rfl
          · rfl
    · intro hext
      constructor
      · intro d hd
        simp [X509ChainToEntry, hc, hext, hd, LogEntry.empty]
      · intro hd
        simp [X509ChainToEntry, hc, hext, hd]

/-- Witness for the amended C2 at a concrete two-certificate precert
chain. -/
theorem C2_x509_chain_to_entry_amended_witness :
    X509ChainToEntry { certs := [c2Leaf, sampleCert] } LogEntry.empty =
      (true,
        { type := some EntryType.precert,
          precertEntry :=
            some { preCert := { issuerKeyHash := "SPKIHASH", tbsCertificate := "TBSSTRIPPED" } },
          x509Entry := none, signedDataEntry := none }) :=
  (((C2_x509_chain_to_entry_amended { certs := [c2Leaf, sampleCert] } LogEntry.empty).2
      c2Leaf [sampleCert] rfl).2.2.1 sampleCert [] rfl rfl).1 "SPKIHASH" "TBSSTRIPPED" rfl rfl

theorem digit_not_space (c : Char) (h : isDigitChar c = true) : isSpaceChar c = false := by
  rw [isDigitChar] at h
  rw [isSpaceChar]
  simp only [Bool.and_eq_true, decide_eq_true_eq] at h
  simp only [Bool.or_eq_false_iff, decide_eq_false_iff_not]
  omega

theorem dropSpaces_of_digits (l : List Char) (h : l.all isDigitChar = true) :
    dropSpaces l = l := by
  rw [dropSpaces]
  cases l with
  | nil => rfl
  | cons c t =>
    rw [List.all_cons, Bool.and_eq_true] at h
    rw [List.dropWhile_cons]
    rw [digit_not_space c h.1]
    simp

theorem takeDigits_of_digits (l : List Char) (h : l.all isDigitChar = true) :
    takeDigits l = l := by
  induction l with
  | nil => rfl
  | cons c t ih =>
    rw [List.all_cons, Bool.and_eq_true] at h
    rw [takeDigits, List.takeWhile_cons, h.1]
    have ht := ih h.2
    rw [takeDigits] at ht
    simp [ht]

theorem splitSign_of_digits (l : List Char) (h : l.all isDigitChar = true) :
    splitSign l = (1, l) := by
  cases l with
  | nil => rfl
  | cons c t =>
    rw [List.all_cons, Bool.and_eq_true] at h
    have hd := h.1
    rw [isDigitChar] at hd
    simp only [Bool.and_eq_true, decide_eq_true_eq] at hd
    have h45 : c ≠ '-' := by
      intro hc
      rw [hc] at hd
      revert hd
      decide
    have h43 : c ≠ '+' := by
      intro hc
      rw [hc] at hd
      revert hd
      decide
    rw [splitSign, if_neg h45, if_neg h43]

theorem strtol_of_digits (s : String) (h : s.toList.all isDigitChar = true) :
    strtolBase10 s =
      if (digitsToNat s.toList : Int) > LONG_MAX then
        { value := LONG_MAX, erange := true }
      else { value := (digitsToNat s.toList : Int), erange := false } := by
  rw [strtolBase10]
  rw [dropSpaces_of_digits _ h]
  rw [splitSign_of_digits _ h]
  simp only [takeDigits_of_digits _ h, one_mul]
  by_cases hgt : (digitsToNat s.toList : Int) > LONG_MAX
  · rw [if_pos hgt, if_pos hgt]
  · rw [if_neg hgt, if_neg hgt, if_neg ?hmin]
    case hmin =>
      have h0 : (0 : Int) ≤ (digitsToNat s.toList : Int) := Int.natCast_nonneg _
      have h1 : LONG_MIN < 0 := by norm_num [LONG_MIN]
      omega

theorem wrapToInt_id (n : Int) (h0 : INT_MIN ≤ n) (h1 : n ≤ INT_MAX) : wrapToInt n = n := by
  rw [INT_MIN] at h0
  rw [INT_MAX] at h1
  rw [wrapToInt]
  have e31 : (2 : Int) ^ 31 = 2147483648 := by norm_num
  have e32 : (2 : Int) ^ 32 = 4294967296 := by norm_num
  rw [e31, e32]
  rw [e31] at h0 h1
  omega

theorem wrapToInt_bounds (n : Int) : INT_MIN ≤ wrapToInt n ∧ wrapToInt n ≤ INT_MAX := by
  rw [INT_MIN, INT_MAX, wrapToInt]
  have e31 : (2 : Int) ^ 31 = 2147483648 := by norm_num
  have e32 : (2 : Int) ^ 32 = 4294967296 := by norm_num
  rw [e31, e32]
  constructor
  · omega
  · omega

theorem natOfDecimal_some (v : String) (n : Nat) (h : natOfDecimal v = some n) :
    v.toList.all isDigitChar = true ∧ digitsToNat v.toList = n := by
  rw [natOfDecimal, decimalListVal] at h
  split at h
  · next hc =>
    refine ⟨hc.2, ?_⟩
    rw [digitsToNat]
    injection h
  · exact absurd h (by simp)

/-- C3 counterexample: `GetIntParam` does not return -1 on a parse failure.
The value "abc" fails to parse as an integer, yet `strtol` reports no error
for it (it returns 0 without setting errno), so `GetIntParam` returns 0. -/
theorem C3_counterexample :
    GetParam [("start", "abc")] "start" = some "abc" ∧
    GetIntParam [("start", "abc")] "start" = 0 ∧
    GetIntParam [("start", "abc")] "start" ≠ -1 := by
  refine ⟨by decide, ?_, ?_⟩
  · decide
  · decide

/-- C3 as amended: `GetIntParam` returns -1 whenever the parameter is
absent (or duplicated) and whenever the value `strtol` parses overflows or
underflows the int range (via errno ERANGE or the int cast clipping the
long); for a value that is a plain string of decimal digits it returns the
denoted number when that fits in int and -1 otherwise.  A value with no
leading digits parses as 0 and a signed or partial numeric prefix is
accepted, so parse failure is not reliably signalled by -1. -/
theorem C3_get_int_param_amended (q : List (String × String)) (p : String) :
    (GetParam q p = none → GetIntParam q p = -1) ∧
    (∀ v, GetParam q p = some v → (strtolBase10 v).erange = true →
      GetIntParam q p = -1) ∧
    (∀ v n, GetParam q p = some v → natOfDecimal v = some n → (n : Int) ≤ INT_MAX →
      GetIntParam q p = (n : Int)) ∧
    (∀ v n, GetParam q p = some v → natOfDecimal v = some n → INT_MAX < (n : Int) →
      GetIntParam q p = -1) := by
  refine ⟨?_, ?_, ?_, ?_⟩
  · intro h
    simp [GetIntParam, h]
  · intro v h he
    simp [GetIntParam, h, he]
  · intro v n h hn hle
    obtain ⟨hdg, hval⟩ := natOfDecimal_some v n hn
    have hs := strtol_of_digits v hdg
    rw [hval] at hs
    have hLM : ¬ ((n : Int) > LONG_MAX) := by
      have hx : INT_MAX < LONG_MAX := by norm_num [INT_MAX, LONG_MAX]
      omega
    rw [if_neg hLM] at hs
    have h0 : INT_MIN ≤ (n : Int) := by
      have hx : (0 : Int) ≤ (n : Int) := Int.natCast_nonneg n
      have hy : INT_MIN < 0 := by norm_num [INT_MIN]
      omega
    simp [GetIntParam, h, hs, wrapToInt_id _ h0 hle]
  · intro v n h hn hgt
    obtain ⟨hdg, hval⟩ := natOfDecimal_some v n hn
    have hs := strtol_of_digits v hdg
    rw [hval] at hs
    by_cases hLM : (n : Int) > LONG_MAX
    · rw [if_pos hLM] at hs
      simp [GetIntParam, h, hs]
    · rw [if_neg hLM] at hs
      have hb := wrapToInt_bounds (n : Int)
      have hne : wrapToInt (n : Int) ≠ (n : Int) := by omega
      simp [GetIntParam, h, hs, hne]

/-- Witness for the amended C3: an absent parameter, an in-range numeral
and an int-overflowing numeral. -/
theorem C3_get_int_param_amended_witness :
    GetIntParam [] "start" = -1 ∧
    GetIntParam [("start", "123")] "start" = 123 ∧
    GetIntParam [("start", "3000000000")] "start" = -1 :=
  ⟨(C3_get_int_param_amended [] "start").1 rfl,
    (C3_get_int_param_amended [("start", "123")] "start").2.2.1 "123" 123 rfl (by decide)
      (by decide),
    (C3_get_int_param_amended [("start", "3000000000")] "start").2.2.2 "3000000000"
      3000000000 rfl (by decide) (by decide)⟩

theorem FullRun_length (n : Nat) : ∀ i : Int, (FullRun i n).length = n := by
  induction n with
  | zero => intro i; rfl
  | succ n ih =>
    intro i
    rw [FullRun, List.length_cons, ih]

theorem ScanEntries_FullRun (n : Nat) : ∀ (i start : Int), start ≤ i →
    ScanEntries (FullRun i n) start = FullRun i n := by
  induction n with
  | zero => intro i start _; rfl
  | succ n ih =>
    intro i start h
    have ht := ih (i + 1) start (by omega)
    rw [ScanEntries] at ht
    rw [FullRun, ScanEntries]
    rw [List.filter_cons_of_pos]
    · rw [ht]
    · simpa [c1Entry] using h

theorem BGELoop_FullRun (n : Nat) : ∀ (i : Int) (incl : Bool) (acc : List JVal),
    BGELoop (FullRun i n) i incl acc n =
      Except.ok (acc ++ (FullRun i n).map (fun c => EntryJson c incl)) := by
  induction n with
  | zero =>
    intro i incl acc
    rw [FullRun, BGELoop]
    simp
  | succ n ih =>
    intro i incl acc
    rw [FullRun, BGELoop]
    simp [c1Entry, ih]

/-- C1: evaluation of `GetEntries` at the failing input.  With the default
cap of 1000 and a database holding 1001 serializable entries at sequence
numbers 0..1000, the request `start=0&end=10000` is answered 200 with 1001
entry records: the handler clamps `end` to `start + cap` and the scan loop
runs `i = start .. end` inclusive, producing cap + 1 records, one more
than the cap the flag documents. -/
theorem C1_get_entries_cap_exceeded :
    entryCount (GetEntries 1000 (FullRun 0 1001)
      { method := Method.get, query := [("start", "0"), ("end", "10000")] }) = some 1001 := by
  have hstart : GetIntParam [("start", "0"), ("end", "10000")] "start" = 0 := by decide
  have hend : GetIntParam [("start", "0"), ("end", "10000")] "end" = 10000 := by decide
  have hincl : GetBoolParam [("start", "0"), ("end", "10000")] "include_scts" = false := by
    decide
  rw [GetEntries]
  rw [if_neg (by decide)]
  simp only [hstart, hend, hincl]
  rw [if_neg (by decide), if_neg (by decide)]
  have hmin : min (10000 : Int) (0 + 1000) = 1000 := by decide
  rw [hmin]
  rw [BlockingGetEntries]
  rw [ScanEntries_FullRun 1001 0 0 (by omega)]
  have hfuel : ((1000 : Int) - 0 + 1).toNat = 1001 := by decide
  rw [hfuel]
  rw [BGELoop_FullRun 1001 0 false []]
  rw [List.nil_append]
  have hlen : (List.map (fun c => EntryJson c false) (FullRun 0 1001)).length = 1001 := by
    rw [List.length_map, FullRun_length]
  simp [entryCount, hlen]

end CtFrontend
